import Mathlib

/-!
Verification of the Duchenne access coverage toolkit core pipeline.

Python floats that can be NaN are modelled as `Option (WithTop ℚ)`:
`none` stands for NaN/None (every comparison with it is false, as with
IEEE NaN), `some ⊤` stands for `float("inf")`, and `some (q : ℚ)` for a
finite value.  (`-inf` never occurs in the program's data and is not
modelled.)
-/

namespace Duchenne

/-- A float value as it appears in a pandas column: NaN/None, +inf, or finite. -/
abbrev PyVal := Option (WithTop ℚ)

/-- The comparison `lower <= value < upper` from `classify_band`
(src/duchenne_toolkit/src/utils_io.py).  A NaN value compares false. -/
def bandMatches (value : PyVal) (lower upper : WithTop ℚ) : Bool :=
  match value with
  | none => false
  | some v => decide (lower ≤ v ∧ v < upper)

/-- `classify_band(value, bands)` from src/duchenne_toolkit/src/utils_io.py:
return the first band whose half-open range `[lower, upper)` contains the
value, else the string "Unknown".  Python dicts iterate in insertion order,
so the band table is a list of `(key, lower, upper)` triples. -/
def classify_band (value : PyVal) : List (String × WithTop ℚ × WithTop ℚ) → String
  | [] => "Unknown"
  | (band, lower, upper) :: rest =>
    if bandMatches value lower upper then band else classify_band value rest

/-- `BAND_MILES` from src/duchenne_toolkit/src/config.py. -/
def BAND_MILES : List (String × WithTop ℚ × WithTop ℚ) :=
  [("<=150", (0 : ℚ), (150 : ℚ)),
   ("150_300", (150 : ℚ), (300 : ℚ)),
   (">300", (300 : ℚ), ⊤)]

/-- `BAND_DRIVE` from src/duchenne_toolkit/src/config.py. -/
def BAND_DRIVE : List (String × WithTop ℚ × WithTop ℚ) :=
  [("<=120", (0 : ℚ), (120 : ℚ)),
   ("120_360", (120 : ℚ), (360 : ℚ)),
   (">360", (360 : ℚ), ⊤)]

/-! ### Geo-math (src/duchenne_toolkit/src/utils_io.py) -/

/-- Python `math.radians`. -/
noncomputable def radians (x : ℝ) : ℝ := x * Real.pi / 180

/-- Python `math.atan2 y x`: the angle of the point `(x, y)`. -/
noncomputable def atan2 (y x : ℝ) : ℝ :=
  if 0 < x then Real.arctan (y / x)
  else if x < 0 ∧ 0 ≤ y then Real.arctan (y / x) + Real.pi
  else if x < 0 ∧ y < 0 then Real.arctan (y / x) - Real.pi
  else if x = 0 ∧ 0 < y then Real.pi / 2
  else if x = 0 ∧ y < 0 then -(Real.pi / 2)
  else 0

/-- The intermediate `a` of `haversine_distance` in utils_io.py. -/
noncomputable def haversineA (lat1 lon1 lat2 lon2 : ℝ) : ℝ :=
  Real.sin (radians (lat2 - lat1) / 2) ^ 2 +
    Real.cos (radians lat1) * Real.cos (radians lat2) *
      Real.sin (radians (lon2 - lon1) / 2) ^ 2

/-- `haversine_distance(lat1, lon1, lat2, lon2)` from utils_io.py:
`R * c` with `R = 3958.8` miles and
`c = 2 * atan2(sqrt(a), sqrt(1 - a))`. -/
noncomputable def haversine_distance (lat1 lon1 lat2 lon2 : ℝ) : ℝ :=
  3958.8 * (2 * atan2 (Real.sqrt (haversineA lat1 lon1 lat2 lon2))
    (Real.sqrt (1 - haversineA lat1 lon1 lat2 lon2)))

/-! ### Demographic aggregator (src/duchenne_toolkit/src/model_dmd.py) -/

/-- Prevalence constants from src/duchenne_toolkit/src/config.py. -/
def DBMD_PREVALENCE_MID : ℚ := 1.47 / 10000

def DBMD_PREVALENCE_LOW : ℚ := 1.3 / 10000

def DBMD_PREVALENCE_HIGH : ℚ := 1.8 / 10000

def DMD_FRACTION_OF_DBMD : ℚ := 0.75

def DMD_DIAGNOSED_PREVALENCE : ℚ := 6 / 100000

/-- Round a rational to the nearest integer, halves to the even integer.
This is the rounding used by pandas `Series.round` (IEEE round-half-even). -/
def roundHalfEven (q : ℚ) : ℤ :=
  let f := ⌊q⌋
  let r := q - f
  if r < 1 / 2 then f
  else if 1 / 2 < r then f + 1
  else if 2 ∣ f then f else f + 1

/-- `.round(1)` on a pandas column: round to one decimal place. -/
def round1 (q : ℚ) : ℚ := (roundHalfEven (q * 10) : ℚ) / 10

/-- One row of the ACS county demographics table: the four five-year male
age-band counts.  `none` models a missing (NaN) count. -/
structure PopRow where
  male_5_9 : Option ℚ
  male_10_14 : Option ℚ
  male_15_19 : Option ℚ
  male_20_24 : Option ℚ
deriving DecidableEq

/-- `df_pop[[...]].sum(axis=1)` in model_dmd.py `main`: pandas sums with
`skipna=True`, so a missing count contributes zero. -/
def male_5_24_total (r : PopRow) : ℚ :=
  r.male_5_9.getD 0 + r.male_10_14.getD 0 + r.male_15_19.getD 0 + r.male_20_24.getD 0

/-- The `dbmd_*` and `dmd_*` column chain of model_dmd.py `main`. -/
def dmd_from_dbmd_low (r : PopRow) : ℚ :=
  male_5_24_total r * DBMD_PREVALENCE_LOW * DMD_FRACTION_OF_DBMD

def dmd_from_dbmd_mid (r : PopRow) : ℚ :=
  male_5_24_total r * DBMD_PREVALENCE_MID * DMD_FRACTION_OF_DBMD

def dmd_from_dbmd_high (r : PopRow) : ℚ :=
  male_5_24_total r * DBMD_PREVALENCE_HIGH * DMD_FRACTION_OF_DBMD

def dmd_diagnosed (r : PopRow) : ℚ :=
  male_5_24_total r * DMD_DIAGNOSED_PREVALENCE

/-- `modeled_dmd_5_24_low` after the `.round(1)` pass in model_dmd.py. -/
def modeled_dmd_5_24_low (r : PopRow) : ℚ :=
  round1 (min (dmd_from_dbmd_low r) (dmd_diagnosed r))

/-- `modeled_dmd_5_24_high` after the `.round(1)` pass in model_dmd.py. -/
def modeled_dmd_5_24_high (r : PopRow) : ℚ :=
  round1 (max (dmd_from_dbmd_high r) (dmd_diagnosed r))

/-- `modeled_dmd_5_24_mid` after the `.round(1)` pass in model_dmd.py. -/
def modeled_dmd_5_24_mid (r : PopRow) : ℚ :=
  round1 ((dmd_from_dbmd_mid r + dmd_diagnosed r) / 2)

/-- Replace missing (NaN) age-band counts by zero. -/
def fillMissingZero (r : PopRow) : PopRow :=
  ⟨some (r.male_5_9.getD 0), some (r.male_10_14.getD 0),
   some (r.male_15_19.getD 0), some (r.male_20_24.getD 0)⟩

/-! ### Identifier normalization (src/duchenne_toolkit/src/data/loaders.py) -/

/-- Python `str.zfill(w)`: left-pad with zeros to width `w`, keeping a
leading sign character in front of the padding. -/
def zfill (w : Nat) (s : String) : String :=
  if w ≤ s.length then s
  else
    match s.data with
    | [] => ⟨List.replicate w '0'⟩
    | c :: rest =>
      if c = '+' ∨ c = '-' then
        ⟨c :: (List.replicate (w - s.length) '0' ++ rest)⟩
      else ⟨List.replicate (w - s.length) '0' ++ s.data⟩

/-- Python slicing `s[-3:]`: the last three characters (the whole string if
it is shorter). -/
def takeLast3 (s : String) : String := ⟨s.data.drop (s.length - 3)⟩

/-- State-FIPS normalization in `load_coverage` (loaders.py line 117):
`df["state_fips"].astype(str).str.zfill(2)`. -/
def normalize_state (s : String) : String := zfill 2 s

/-- County-FIPS normalization in `load_coverage` (loaders.py lines 121-122):
zero-pad to three digits, then keep the last three digits so that a
state-prefixed code such as "1001" re-derives to "001". -/
def normalize_county (s : String) : String := takeLast3 (zfill 3 s)

/-- `df["geoid"] = df["state_fips"] + df["county_fips"]` (loaders.py line
125), applied to raw codes after both normalizations. -/
def mk_geoid (st cty : String) : String := normalize_state st ++ normalize_county cty

/-! ### Coverage engine (src/duchenne_toolkit/src/coverage.py) -/

/-- One row of the centers table as consumed by `compute_nearest_center`:
its id, name and optional coordinates (`none` models NaN). -/
structure CenterRow where
  center_id : String
  center_name : String
  lat : Option ℚ
  lon : Option ℚ
deriving DecidableEq

/-- The distance computed for one center row, or `none` when the row's
coordinates are missing and the loop `continue`s (coverage.py line 153). -/
def resolvedDist {α : Type} (dist : ℚ → ℚ → ℚ → ℚ → α) (clat clon : ℚ)
    (r : CenterRow) : Option α :=
  match r.lat, r.lon with
  | some la, some lo => some (dist clat clon la lo)
  | _, _ => none

/-- One iteration of the `compute_nearest_center` loop (coverage.py lines
152-159): skip a center with a missing coordinate, otherwise keep the new
center exactly when its distance is strictly below the running minimum. -/
def nearestStep {α : Type} [LinearOrder α] (dist : ℚ → ℚ → ℚ → ℚ → α)
    (clat clon : ℚ) (acc : Option String × Option String × WithTop α)
    (r : CenterRow) : Option String × Option String × WithTop α :=
  match resolvedDist dist clat clon r with
  | none => acc
  | some d =>
    if (d : WithTop α) < acc.2.2 then
      (some r.center_id, some r.center_name, (d : WithTop α))
    else acc

/-- `compute_nearest_center(county_lat, county_lon, centers_df)` from
coverage.py lines 147-160, generic over the distance function (the source
hard-codes `haversine_distance`; see `compute_nearest_center_haversine`).
The accumulator starts as `(None, None, float("inf"))`, with `inf`
modelled by `⊤`. -/
def compute_nearest_center {α : Type} [LinearOrder α]
    (dist : ℚ → ℚ → ℚ → ℚ → α) (clat clon : ℚ) (centers : List CenterRow) :
    Option String × Option String × WithTop α :=
  centers.foldl (nearestStep dist clat clon) (none, none, ⊤)

/-- The source's `compute_nearest_center` itself: the generic loop applied
to `haversine_distance`. -/
noncomputable def compute_nearest_center_haversine (clat clon : ℚ)
    (centers : List CenterRow) : Option String × Option String × WithTop ℝ :=
  compute_nearest_center
    (fun a b c d => haversine_distance (a : ℝ) (b : ℝ) (c : ℝ) (d : ℝ))
    clat clon centers

/-- The returned triple is the first center achieving the minimal distance:
`centers` splits as `l1 ++ r :: l2` where `r` has a resolved distance `d`,
the result is exactly `(r.center_id, r.center_name, d)`, every resolved
center strictly before `r` is strictly farther (so a tie is resolved to the
first center in list order), and no resolved center anywhere is nearer. -/
def IsFirstMin {α : Type} [LinearOrder α] (dist : ℚ → ℚ → ℚ → ℚ → α)
    (clat clon : ℚ) (centers : List CenterRow)
    (res : Option String × Option String × WithTop α) : Prop :=
  ∃ l1 r l2 d, centers = l1 ++ r :: l2 ∧
    resolvedDist dist clat clon r = some d ∧
    res = (some r.center_id, some r.center_name, (d : WithTop α)) ∧
    (∀ r' ∈ l1, ∀ d', resolvedDist dist clat clon r' = some d' → d < d') ∧
    (∀ r' ∈ centers, ∀ d', resolvedDist dist clat clon r' = some d' → d ≤ d')

/-- `dist / 50 * 60` (coverage.py line 236) on a possibly-infinite
distance: Python's `inf / 50 * 60` is again `inf`. -/
def driveTime (d : WithTop ℚ) : WithTop ℚ := d.map (fun q => q / 50 * 60)

/-- The band columns of coverage.py lines 244-245:
`classify_band(x, bands) if pd.notnull(x) else "Unknown"`.  An absent
(`None`) column entry is modelled by the outer `none`. -/
def bandOf (bands : List (String × WithTop ℚ × WithTop ℚ))
    (x : Option (WithTop ℚ)) : String :=
  match x with
  | none => "Unknown"
  | some v => classify_band (some v) bands

/-- One output row of the per-county loop of coverage.py `main`. -/
structure CoverageRow where
  nearest_center_id : Option String
  nearest_center_name : Option String
  great_circle_mi : Option (WithTop ℚ)
  drive_time_minutes : Option (WithTop ℚ)
  band_miles : String
  band_drive_time : String
deriving DecidableEq

/-- The body of the per-county loop of coverage.py `main` (lines 220-245)
for one county row: a missing centroid coordinate yields the degraded row
(`None` ids, `None` distance and drive time, "Unknown" bands); otherwise
the nearest center is computed and both bands classified. -/
def coverageRow (dist : ℚ → ℚ → ℚ → ℚ → ℚ) (centers : List CenterRow)
    (clat clon : Option ℚ) : CoverageRow :=
  match clat, clon with
  | some la, some lo =>
    let res := compute_nearest_center dist la lo centers
    { nearest_center_id := res.1
      nearest_center_name := res.2.1
      great_circle_mi := some res.2.2
      drive_time_minutes := some (driveTime res.2.2)
      band_miles := bandOf BAND_MILES (some res.2.2)
      band_drive_time := bandOf BAND_DRIVE (some (driveTime res.2.2)) }
  | _, _ =>
    { nearest_center_id := none
      nearest_center_name := none
      great_circle_mi := none
      drive_time_minutes := none
      band_miles := bandOf BAND_MILES none
      band_drive_time := bandOf BAND_DRIVE none }

/-- The whole per-county loop: one coverage row per county row, in order. -/
def coverage_rows (dist : ℚ → ℚ → ℚ → ℚ → ℚ) (centers : List CenterRow)
    (counties : List (Option ℚ × Option ℚ)) : List CoverageRow :=
  counties.map (fun c => coverageRow dist centers c.1 c.2)

/-! ### Coverage loader (src/duchenne_toolkit/src/data/loaders.py) -/

/-- One row of the coverage table reduced to the columns the coordinate
logic touches: the canonical join key and the two coordinates (`none`
models NaN; values that failed `pd.to_numeric` coercion are already
`none`). -/
structure CovRow where
  geoid : String
  lat : Option ℚ
  lon : Option ℚ
deriving DecidableEq

/-- The coverage table: whether the (canonically renamed) `lat` and `lon`
columns exist at all, and its rows.  When a column flag is `false` the
corresponding row fields carry no information. -/
structure CovTable where
  hasLat : Bool
  hasLon : Bool
  rows : List CovRow
deriving DecidableEq

/-- `ensure_lat_lon(df)` from loaders.py lines 34-84, after the column
renaming and numeric coercion: when both coordinate columns are present,
`df.dropna(subset=["lat", "lon"])` removes every row in which either
coordinate is missing, reporting the number of dropped rows; when either
column is absent the frame is unchanged and the report is `None`. -/
def ensure_lat_lon (t : CovTable) : CovTable × Option Nat :=
  if t.hasLat && t.hasLon then
    let kept := t.rows.filter (fun r => r.lat.isSome && r.lon.isSome)
    (⟨t.hasLat, t.hasLon, kept⟩, some (t.rows.length - kept.length))
  else (t, none)

/-- The centroid merge of loaders.py lines 141-160: a left join on `geoid`
against the lookup table (modelled as a function, i.e. a unique-keyed
table) followed by `fillna` — an existing present coordinate is kept, a
missing one is filled from the lookup; when a coordinate column did not
exist it is created from the lookup outright. -/
def mergeBackfill (lookup : String → Option ℚ × Option ℚ) (t : CovTable) :
    CovTable :=
  ⟨true, true, t.rows.map (fun r =>
    ⟨r.geoid,
     if t.hasLat then
       (match r.lat with
        | some v => some v
        | none => (lookup r.geoid).1)
     else (lookup r.geoid).1,
     if t.hasLon then
       (match r.lon with
        | some v => some v
        | none => (lookup r.geoid).2)
     else (lookup r.geoid).2⟩)⟩

/-- The coordinate part of `load_coverage()` (loaders.py lines 128-160):
standardize and drop via `ensure_lat_lon`, then merge centroids only if
some row still lacks a coordinate (all rows count as missing when the
columns are absent, via `pd.Series(True, index=df.index).any()`) and the
lookup file exists. -/
def load_coverage_coords (lookupExists : Bool)
    (lookup : String → Option ℚ × Option ℚ) (t : CovTable) : CovTable :=
  let t1 := (ensure_lat_lon t).1
  let missingAny : Bool :=
    if t1.hasLat && t1.hasLon then
      t1.rows.any (fun r => r.lat.isNone || r.lon.isNone)
    else !t1.rows.isEmpty
  if missingAny then (if lookupExists then mergeBackfill lookup t1 else t1)
  else t1

/-- A concrete centroid lookup table for witnesses. -/
def wLookup : String → Option ℚ × Option ℚ :=
  fun g => if g = "01001" then (some 32, some (-86)) else (none, none)

/-- A concrete coverage table with both coordinate columns present: one row
with a full coordinate and one row missing its longitude. -/
def wCovTable : CovTable :=
  ⟨true, true, [⟨"01001", some 32, none⟩, ⟨"01003", some 30, some (-87)⟩]⟩

/-! ### Remote publish (src/duchenne_toolkit/src/utils/github.py) -/

/-- `create_branch(repo, base_branch, new_branch, token)` from
utils/github.py lines 25-48, with the two HTTP round-trips abstracted by
their observed status codes: `getStatus`/`getSha` for the GET of the base
branch ref and `postStatus` for the POST creating the new ref (the token
and payload do not influence the control flow).  An explicit 404 on the
GET raises; `raise_for_status` raises on any 4xx/5xx status; a POST
status of 422 means the branch already exists and is returned as success
with the same ref string. -/
def create_branch (repo base_branch new_branch : String) (getStatus : Nat)
    (_getSha : String) (postStatus : Nat) : Except String String :=
  if ¬ repo.data.contains '/' then Except.error "repo must be owner/name"
  else if getStatus = 404 then
    Except.error ("Base branch " ++ base_branch ++ " not found")
  else if 400 ≤ getStatus then Except.error "http error on base ref fetch"
  else
    let ref := "refs/heads/" ++ new_branch
    if postStatus = 422 then Except.ok ref
    else if 400 ≤ postStatus then Except.error "http error on ref creation"
    else Except.ok ref

/-- Helper: `classify_band` on a finite value against `BAND_MILES`,
written as explicit rational comparisons. -/
theorem classify_band_miles_cases (v : ℚ) :
    classify_band (some (v : WithTop ℚ)) BAND_MILES =
      if 0 ≤ v ∧ v < 150 then "<=150"
      else if 150 ≤ v ∧ v < 300 then "150_300"
      else if 300 ≤ v then ">300" else "Unknown" := by
  simp only [classify_band, BAND_MILES, bandMatches, decide_eq_true_eq]
  by_cases h1 : 0 ≤ v ∧ v < 150
  · rw [if_pos, if_pos h1]
    exact ⟨by exact_mod_cast h1.1, by exact_mod_cast h1.2⟩
  · rw [if_neg, if_neg h1]
    · by_cases h2 : 150 ≤ v ∧ v < 300
      · rw [if_pos, if_pos h2]
        exact ⟨by exact_mod_cast h2.1, by exact_mod_cast h2.2⟩
      · rw [if_neg, if_neg h2]
        · by_cases h3 : 300 ≤ v
          · rw [if_pos, if_pos h3]
            exact ⟨by exact_mod_cast h3, WithTop.coe_lt_top v⟩
          · rw [if_neg, if_neg h3]
            intro hc
            exact h3 (by exact_mod_cast hc.1)
        · intro hc
          exact h2 ⟨by exact_mod_cast hc.1, by exact_mod_cast hc.2⟩
    · intro hc
      exact h1 ⟨by exact_mod_cast hc.1, by exact_mod_cast hc.2⟩

/-- C1 (counterexample): the claim fails on the code at its own boundary
inputs.  The value exactly 150 classifies as "150_300" (not "<=150"), the
value exactly 300 classifies as ">300" (not "150_300"), a NaN/null input
yields the sentinel "Unknown" (capitalised, not "unknown"), and a negative
numeric input falls through to "Unknown" rather than one of the three band
keys. -/
theorem classify_band_claim_cex :
    classify_band (some ((150 : ℚ) : WithTop ℚ)) BAND_MILES = "150_300" ∧
    classify_band (some ((300 : ℚ) : WithTop ℚ)) BAND_MILES = ">300" ∧
    classify_band none BAND_MILES = "Unknown" ∧
    "Unknown" ≠ "unknown" ∧
    classify_band (some ((-1 : ℚ) : WithTop ℚ)) BAND_MILES = "Unknown" := by
  refine ⟨by decide, by decide, by decide, by decide, by decide⟩

/-- C1 (amended): for every nonnegative numeric input, `classify_band` with
`BAND_MILES` returns exactly one of the three band keys "<=150", "150_300",
">300"; a null/NaN input returns the "Unknown" sentinel; and at the
boundaries, the value exactly 150 classifies as "150_300" and the value
exactly 300 classifies as ">300" (lower-inclusive half-open bands). -/
theorem classify_band_amended :
    (∀ v : ℚ, 0 ≤ v →
      classify_band (some (v : WithTop ℚ)) BAND_MILES = "<=150" ∨
      classify_band (some (v : WithTop ℚ)) BAND_MILES = "150_300" ∨
      classify_band (some (v : WithTop ℚ)) BAND_MILES = ">300") ∧
    classify_band none BAND_MILES = "Unknown" ∧
    classify_band (some ((150 : ℚ) : WithTop ℚ)) BAND_MILES = "150_300" ∧
    classify_band (some ((300 : ℚ) : WithTop ℚ)) BAND_MILES = ">300" ∧
    classify_band (some ((0 : ℚ) : WithTop ℚ)) BAND_MILES = "<=150" := by
  refine ⟨?_, by decide, by decide, by decide, by decide⟩
  intro v hv
  rw [classify_band_miles_cases]
  by_cases h1 : v < 150
  · left; rw [if_pos ⟨hv, h1⟩]
  · by_cases h2 : v < 300
    · right; left; rw [if_neg (fun hc => h1 hc.2), if_pos ⟨le_of_not_lt h1, h2⟩]
    · right; right
      rw [if_neg (fun hc => h1 hc.2), if_neg (fun hc => h2 hc.2),
        if_pos (le_of_not_lt h2)]

/-- C1 (amended, witness): the universally quantified part of
`classify_band_amended` evaluated at the concrete input 42. -/
theorem classify_band_amended_witness :
    classify_band (some ((42 : ℚ) : WithTop ℚ)) BAND_MILES = "<=150" ∨
    classify_band (some ((42 : ℚ) : WithTop ℚ)) BAND_MILES = "150_300" ∨
    classify_band (some ((42 : ℚ) : WithTop ℚ)) BAND_MILES = ">300" :=
  classify_band_amended.1 42 (by norm_num)

/-- Helper: `roundHalfEven` of a nonnegative rational is nonnegative. -/
theorem roundHalfEven_nonneg (q : ℚ) (h : 0 ≤ q) : 0 ≤ roundHalfEven q := by
  have hf : (0 : ℤ) ≤ ⌊q⌋ := Int.floor_nonneg.mpr h
  unfold roundHalfEven
  dsimp only
  split_ifs <;> omega

/-- Helper: `round1` of a nonnegative rational is nonnegative. -/
theorem round1_nonneg (q : ℚ) (h : 0 ≤ q) : 0 ≤ round1 q := by
  unfold round1
  have := roundHalfEven_nonneg (q * 10) (by positivity)
  have h10 : (0 : ℚ) ≤ (roundHalfEven (q * 10) : ℚ) := by exact_mod_cast this
  positivity

/-- C2: for every county row, the aggregator computes
`final_low = min(registry low estimate, diagnosed estimate)`,
`final_high = max(registry high estimate, diagnosed estimate)` and
`final_mid = (registry mid estimate + diagnosed estimate) / 2`, each rounded
to one decimal, where the registry estimates use rates 1.3/1.47/1.8 per
10,000 with target fraction 0.75 and the diagnosed rate is 6 per 100,000;
for a population of 100,000 at-risk males the outputs are
final_low = 6, final_mid = 8.5, final_high = 13.5. -/
theorem model_dmd_bracketing :
    (∀ r : PopRow,
      modeled_dmd_5_24_low r =
        round1 (min (male_5_24_total r * (1.3 / 10000) * 0.75)
          (male_5_24_total r * (6 / 100000))) ∧
      modeled_dmd_5_24_high r =
        round1 (max (male_5_24_total r * (1.8 / 10000) * 0.75)
          (male_5_24_total r * (6 / 100000))) ∧
      modeled_dmd_5_24_mid r =
        round1 ((male_5_24_total r * (1.47 / 10000) * 0.75 +
          male_5_24_total r * (6 / 100000)) / 2)) ∧
    modeled_dmd_5_24_low ⟨some 25000, some 25000, some 25000, some 25000⟩ = 6 ∧
    modeled_dmd_5_24_mid ⟨some 25000, some 25000, some 25000, some 25000⟩ = 8.5 ∧
    modeled_dmd_5_24_high ⟨some 25000, some 25000, some 25000, some 25000⟩ = 13.5 := by
  refine ⟨fun r => ⟨rfl, rfl, rfl⟩, ?_, ?_, ?_⟩
  · norm_num [modeled_dmd_5_24_low, dmd_from_dbmd_low, dmd_diagnosed, male_5_24_total,
      round1, roundHalfEven, min_def, DBMD_PREVALENCE_LOW, DMD_FRACTION_OF_DBMD,
      DMD_DIAGNOSED_PREVALENCE]
  · norm_num [modeled_dmd_5_24_mid, dmd_from_dbmd_mid, dmd_diagnosed, male_5_24_total,
      round1, roundHalfEven, DBMD_PREVALENCE_MID, DMD_FRACTION_OF_DBMD,
      DMD_DIAGNOSED_PREVALENCE]
  · norm_num [modeled_dmd_5_24_high, dmd_from_dbmd_high, dmd_diagnosed, male_5_24_total,
      round1, roundHalfEven, max_def, DBMD_PREVALENCE_HIGH, DMD_FRACTION_OF_DBMD,
      DMD_DIAGNOSED_PREVALENCE]

/-- C5 (counterexample): negative input counts are NOT treated as zero — a
county row with age-band counts (-100000, 0, 0, 0) produces the negative low
estimate -9.8, so the aggregator can produce a negative estimate.  (Were
negatives clipped to zero, the low estimate would be 0.) -/
theorem model_dmd_negative_cex :
    modeled_dmd_5_24_low ⟨some (-100000), some 0, some 0, some 0⟩ = -9.8 ∧
    (-9.8 : ℚ) < 0 := by
  constructor
  · norm_num [modeled_dmd_5_24_low, dmd_from_dbmd_low, dmd_diagnosed, male_5_24_total,
      round1, roundHalfEven, min_def, DBMD_PREVALENCE_LOW, DMD_FRACTION_OF_DBMD,
      DMD_DIAGNOSED_PREVALENCE]
  · norm_num

/-- C5 (amended): missing (null/NaN) age-band counts are treated as zero
before aggregation (replacing missing counts by zero leaves all three
estimates unchanged); negative counts are not clipped, but whenever every
present count is nonnegative the aggregator produces no negative low, mid
or high estimate. -/
theorem model_dmd_missing_zero_nonneg :
    (∀ r : PopRow,
      modeled_dmd_5_24_low (fillMissingZero r) = modeled_dmd_5_24_low r ∧
      modeled_dmd_5_24_mid (fillMissingZero r) = modeled_dmd_5_24_mid r ∧
      modeled_dmd_5_24_high (fillMissingZero r) = modeled_dmd_5_24_high r) ∧
    (∀ r : PopRow, 0 ≤ r.male_5_9.getD 0 → 0 ≤ r.male_10_14.getD 0 →
      0 ≤ r.male_15_19.getD 0 → 0 ≤ r.male_20_24.getD 0 →
      0 ≤ modeled_dmd_5_24_low r ∧ 0 ≤ modeled_dmd_5_24_mid r ∧
      0 ≤ modeled_dmd_5_24_high r) := by
  constructor
  · exact fun r => ⟨rfl, rfl, rfl⟩
  · intro r h1 h2 h3 h4
    have ht : 0 ≤ male_5_24_total r :=
      add_nonneg (add_nonneg (add_nonneg h1 h2) h3) h4
    have hlow : 0 ≤ dmd_from_dbmd_low r := by
      refine mul_nonneg (mul_nonneg ht ?_) ?_ <;>
        norm_num [DBMD_PREVALENCE_LOW, DMD_FRACTION_OF_DBMD]
    have hmid : 0 ≤ dmd_from_dbmd_mid r := by
      refine mul_nonneg (mul_nonneg ht ?_) ?_ <;>
        norm_num [DBMD_PREVALENCE_MID, DMD_FRACTION_OF_DBMD]
    have hdiag : 0 ≤ dmd_diagnosed r := by
      refine mul_nonneg ht ?_
      norm_num [DMD_DIAGNOSED_PREVALENCE]
    refine ⟨round1_nonneg _ (le_min hlow hdiag),
      round1_nonneg _ (div_nonneg (add_nonneg hmid hdiag) (by norm_num)),
      round1_nonneg _ (le_trans hdiag (le_max_right _ _))⟩

/-- C5 (amended, witness): `model_dmd_missing_zero_nonneg` applied to the
concrete row with counts (missing, 2, missing, 3). -/
theorem model_dmd_missing_zero_nonneg_witness :
    (modeled_dmd_5_24_low (fillMissingZero ⟨none, some 2, none, some 3⟩) =
      modeled_dmd_5_24_low ⟨none, some 2, none, some 3⟩) ∧
    0 ≤ modeled_dmd_5_24_low ⟨none, some 2, none, some 3⟩ :=
  ⟨(model_dmd_missing_zero_nonneg.1 ⟨none, some 2, none, some 3⟩).1,
   (model_dmd_missing_zero_nonneg.2 ⟨none, some 2, none, some 3⟩
      (by norm_num) (by norm_num) (by norm_num) (by norm_num)).1⟩

/-- Helper: `zfill` pads to exactly the target width (or leaves a longer
string alone). -/
theorem zfill_length (w : Nat) (s : String) : (zfill w s).length = max w s.length := by
  unfold zfill
  by_cases h : w ≤ s.length
  · rw [if_pos h]; omega
  · rw [if_neg h]
    rcases s with ⟨l⟩
    rcases l with _ | ⟨c, rest⟩
    · simp [String.length]
    · dsimp only
      by_cases hc : c = '+' ∨ c = '-'
      · rw [if_pos hc]
        simp only [String.length] at *
        simp only [List.length_cons, List.length_append, List.length_replicate]
        omega
      · rw [if_neg hc]
        simp only [String.length] at *
        simp only [List.length_cons, List.length_append, List.length_replicate]
        omega

/-- Helper: `zfill` leaves a string of at least the target width alone. -/
theorem zfill_of_le (w : Nat) (s : String) (h : w ≤ s.length) : zfill w s = s := by
  unfold zfill
  rw [if_pos h]

/-- Helper: `takeLast3` leaves a string of at most three characters alone. -/
theorem takeLast3_of_le (s : String) (h : s.length ≤ 3) : takeLast3 s = s := by
  rcases s with ⟨l⟩
  unfold takeLast3
  simp only [String.length] at h ⊢
  rw [Nat.sub_eq_zero_of_le h, List.drop_zero]

/-- Helper: a normalized county code has exactly three characters. -/
theorem normalize_county_length (s : String) : (normalize_county s).length = 3 := by
  unfold normalize_county takeLast3
  have hz := zfill_length 3 s
  rcases h : zfill 3 s with ⟨l⟩
  rw [h] at hz
  simp only [String.length, List.length_drop] at hz ⊢
  omega

/-- C6: identifier normalization in the loader maps county code "1" to
"001" and state code "1" to "01", yielding geo_id "01001"; a county code
stored with a state-code prefix ("1001") re-derives to "001"; and both
normalizations are idempotent, so an already-correct pair (hence geo_id
"01001") is left unchanged. -/
theorem normalize_codes_roundtrip :
    normalize_county "1" = "001" ∧
    normalize_state "1" = "01" ∧
    mk_geoid "1" "1" = "01001" ∧
    normalize_county "1001" = "001" ∧
    (∀ s : String, normalize_state (normalize_state s) = normalize_state s) ∧
    (∀ s : String, normalize_county (normalize_county s) = normalize_county s) ∧
    mk_geoid "01" "001" = "01001" := by
  refine ⟨by decide, by decide, by decide, by decide, ?_, ?_, by decide⟩
  · intro s
    refine zfill_of_le 2 (normalize_state s) ?_
    rw [normalize_state, zfill_length]
    omega
  · intro s
    rw [normalize_county, zfill_of_le 3 (normalize_county s) (by rw [normalize_county_length]),
      takeLast3_of_le _ (by rw [normalize_county_length])]

/-- Helper: the haversine intermediate `a` is symmetric in its two points. -/
theorem haversineA_symm (lat1 lon1 lat2 lon2 : ℝ) :
    haversineA lat2 lon2 lat1 lon1 = haversineA lat1 lon1 lat2 lon2 := by
  unfold haversineA
  rw [show radians (lat1 - lat2) / 2 = -(radians (lat2 - lat1) / 2) by unfold radians; ring,
    show radians (lon1 - lon2) / 2 = -(radians (lon2 - lon1) / 2) by unfold radians; ring,
    Real.sin_neg, Real.sin_neg]
  ring

/-- C9: the great-circle distance function (haversine with Earth radius
3958.8 miles) is symmetric in its two coordinate pairs, and returns 0 when
both points are identical. -/
theorem haversine_symm_zero :
    (∀ lat1 lon1 lat2 lon2 : ℝ,
      haversine_distance lat1 lon1 lat2 lon2 = haversine_distance lat2 lon2 lat1 lon1) ∧
    (∀ lat lon : ℝ, haversine_distance lat lon lat lon = 0) := by
  constructor
  · intro lat1 lon1 lat2 lon2
    unfold haversine_distance
    rw [haversineA_symm]
  · intro lat lon
    unfold haversine_distance
    have hA : haversineA lat lon lat lon = 0 := by
      unfold haversineA
      rw [sub_self, sub_self,
        show radians 0 / 2 = 0 by unfold radians; ring, Real.sin_zero]
      ring
    rw [hA]
    norm_num [atan2, Real.arctan_zero]

/-- Helper: full characterization of the `compute_nearest_center` fold for
an arbitrary accumulator.  Either no center beats the accumulator (and every
resolved distance in the list is at least the running minimum), or the
result is the first center achieving the minimum distance of the list, that
distance beats the accumulator, all strictly earlier resolved centers are
strictly farther, and all later resolved centers are no nearer. -/
theorem foldl_nearestStep_char {α : Type} [LinearOrder α]
    (dist : ℚ → ℚ → ℚ → ℚ → α) (clat clon : ℚ) (l : List CenterRow)
    (acc : Option String × Option String × WithTop α) :
    (l.foldl (nearestStep dist clat clon) acc = acc ∧
      ∀ r ∈ l, ∀ d, resolvedDist dist clat clon r = some d →
        acc.2.2 ≤ (d : WithTop α)) ∨
    (∃ l1 r l2 d, l = l1 ++ r :: l2 ∧
      resolvedDist dist clat clon r = some d ∧
      l.foldl (nearestStep dist clat clon) acc =
        (some r.center_id, some r.center_name, (d : WithTop α)) ∧
      (d : WithTop α) < acc.2.2 ∧
      (∀ r' ∈ l1, ∀ d', resolvedDist dist clat clon r' = some d' → d < d') ∧
      (∀ r' ∈ l2, ∀ d', resolvedDist dist clat clon r' = some d' → d ≤ d')) := by
  induction l generalizing acc with
  | nil =>
    left
    exact ⟨rfl, by simp⟩
  | cons r l ih =>
    rw [List.foldl_cons]
    rcases hrd : resolvedDist dist clat clon r with _ | d
    · have hstep : nearestStep dist clat clon acc r = acc := by
        unfold nearestStep
        rw [hrd]
      rw [hstep]
      rcases ih acc with ⟨heq, hall⟩ | ⟨l1, r0, l2, d0, hsplit, hd0, heq, hlt, hbef, haft⟩
      · left
        refine ⟨heq, ?_⟩
        intro r' hr' d hd
        rcases List.mem_cons.mp hr' with h | h
        · rw [h, hrd] at hd
          cases hd
        · exact hall r' h d hd
      · right
        refine ⟨r :: l1, r0, l2, d0, by rw [hsplit]; rfl, hd0, heq, hlt, ?_, haft⟩
        intro r' hr' d' hd'
        rcases List.mem_cons.mp hr' with h | h
        · rw [h, hrd] at hd'
          cases hd'
        · exact hbef r' h d' hd'
    · have hstep : nearestStep dist clat clon acc r =
          if (d : WithTop α) < acc.2.2 then
            (some r.center_id, some r.center_name, (d : WithTop α))
          else acc := by
        unfold nearestStep
        rw [hrd]
      by_cases hdlt : (d : WithTop α) < acc.2.2
      · rw [hstep, if_pos hdlt]
        rcases ih (some r.center_id, some r.center_name, (d : WithTop α)) with
          ⟨heq, hall⟩ | ⟨l1, r0, l2, d0, hsplit, hd0, heq, hlt, hbef, haft⟩
        · right
          refine ⟨[], r, l, d, rfl, hrd, heq, hdlt, by simp, ?_⟩
          intro r' hr' d' hd'
          have := hall r' hr' d' hd'
          exact WithTop.coe_le_coe.mp this
        · right
          have hd0d : d0 < d := WithTop.coe_lt_coe.mp hlt
          refine ⟨r :: l1, r0, l2, d0, by rw [hsplit]; rfl, hd0, heq,
            lt_trans hlt hdlt, ?_, haft⟩
          intro r' hr' d' hd'
          rcases List.mem_cons.mp hr' with h | h
          · rw [h, hrd] at hd'
            injection hd' with h'
            rw [h'] at hd0d
            exact hd0d
          · exact hbef r' h d' hd'
      · rw [hstep, if_neg hdlt]
        have hge : acc.2.2 ≤ (d : WithTop α) := not_lt.mp hdlt
        rcases ih acc with ⟨heq, hall⟩ | ⟨l1, r0, l2, d0, hsplit, hd0, heq, hlt, hbef, haft⟩
        · left
          refine ⟨heq, ?_⟩
          intro r' hr' d' hd'
          rcases List.mem_cons.mp hr' with h | h
          · rw [h, hrd] at hd'
            injection hd' with h'
            rw [← h']
            exact hge
          · exact hall r' h d' hd'
        · right
          refine ⟨r :: l1, r0, l2, d0, by rw [hsplit]; rfl, hd0, heq, hlt, ?_, haft⟩
          intro r' hr' d' hd'
          rcases List.mem_cons.mp hr' with h | h
          · rw [h, hrd] at hd'
            injection hd' with h'
            rw [← h']
            exact WithTop.coe_lt_coe.mp (lt_of_lt_of_le hlt hge)
          · exact hbef r' h d' hd'

/-- Helper: with at least one resolved center, `compute_nearest_center`
returns the first center of minimal distance. -/
theorem compute_nearest_center_isFirstMin {α : Type} [LinearOrder α]
    (dist : ℚ → ℚ → ℚ → ℚ → α) (clat clon : ℚ) (centers : List CenterRow)
    (h : ∃ r ∈ centers, (resolvedDist dist clat clon r).isSome) :
    IsFirstMin dist clat clon centers
      (compute_nearest_center dist clat clon centers) := by
  rcases foldl_nearestStep_char dist clat clon centers (none, none, ⊤) with
    ⟨_, hall⟩ | ⟨l1, r, l2, d, hsplit, hd, heq, _, hbef, haft⟩
  · exfalso
    rcases h with ⟨r, hr, hsome⟩
    rcases Option.isSome_iff_exists.mp hsome with ⟨d, hd⟩
    have htop : (⊤ : WithTop α) ≤ (d : WithTop α) := hall r hr d hd
    exact (WithTop.coe_ne_top (a := d)) (top_le_iff.mp htop)
  · refine ⟨l1, r, l2, d, hsplit, hd, heq, hbef, ?_⟩
    intro r' hr' d' hd'
    rw [hsplit] at hr'
    rcases List.mem_append.mp hr' with h1 | h2
    · exact le_of_lt (hbef r' h1 d' hd')
    · rcases List.mem_cons.mp h2 with h' | h'
      · rw [h', hd] at hd'
        injection hd' with h''
        rw [← h'']
      · exact haft r' h' d' hd'

/-- C3: when at least one center has resolved coordinates,
`compute_nearest_center` returns a resolved center whose distance to the
county is minimal, with a tie at the minimum resolved to the first such
center in center-list order (`IsFirstMin`); and when no two resolved
centers are at equal distance, permuting the center list does not change
the returned id, name or distance. -/
theorem nearest_center_min_first_perm {α : Type} [LinearOrder α]
    (dist : ℚ → ℚ → ℚ → ℚ → α) (clat clon : ℚ) (centers : List CenterRow)
    (h : ∃ r ∈ centers, (resolvedDist dist clat clon r).isSome) :
    IsFirstMin dist clat clon centers
      (compute_nearest_center dist clat clon centers) ∧
    ∀ centers' : List CenterRow, centers'.Perm centers →
      (∀ r ∈ centers, ∀ r' ∈ centers,
        (resolvedDist dist clat clon r).isSome →
        resolvedDist dist clat clon r = resolvedDist dist clat clon r' →
        r = r') →
      compute_nearest_center dist clat clon centers' =
        compute_nearest_center dist clat clon centers := by
  refine ⟨compute_nearest_center_isFirstMin dist clat clon centers h, ?_⟩
  intro centers' hperm hinj
  have h' : ∃ r ∈ centers', (resolvedDist dist clat clon r).isSome := by
    rcases h with ⟨r, hr, hs⟩
    exact ⟨r, hperm.mem_iff.mpr hr, hs⟩
  rcases compute_nearest_center_isFirstMin dist clat clon centers h with
    ⟨l1, r, l2, d, hsplit, hd, heq, _, hmin⟩
  rcases compute_nearest_center_isFirstMin dist clat clon centers' h' with
    ⟨l1', r2, l2', d2, hsplit', hd2, heq', _, hmin'⟩
  have hrmem : r ∈ centers := by
    rw [hsplit]
    exact List.mem_append.mpr (Or.inr (List.mem_cons_self r l2))
  have hr2mem' : r2 ∈ centers' := by
    rw [hsplit']
    exact List.mem_append.mpr (Or.inr (List.mem_cons_self r2 l2'))
  have hr2mem : r2 ∈ centers := hperm.mem_iff.mp hr2mem'
  have hrmem' : r ∈ centers' := hperm.mem_iff.mpr hrmem
  have hdd2 : d = d2 :=
    le_antisymm (hmin r2 hr2mem d2 hd2) (hmin' r hrmem' d hd)
  have hrr2 : r = r2 := by
    refine hinj r hrmem r2 hr2mem (by rw [hd]; rfl) ?_
    rw [hd, hd2, hdd2]
  rw [heq, heq', hrr2, hdd2]

/-- A concrete distance function for evaluating the nearest-center scan. -/
def wDist : ℚ → ℚ → ℚ → ℚ → ℚ := fun _ _ la lo => la + lo

/-- A concrete center list: two resolved centers (distances 3 and 7 under
`wDist` from the origin) and one center with a missing latitude. -/
def wCenters : List CenterRow :=
  [⟨"A", "Alpha", some 1, some 2⟩,
   ⟨"B", "Beta", some 3, some 4⟩,
   ⟨"C", "Gamma", none, some 5⟩]

/-- C3 (witness): `nearest_center_min_first_perm` applied to the concrete
center list `wCenters`, discharging the resolvability hypothesis. -/
theorem nearest_center_min_first_perm_witness :
    IsFirstMin wDist 0 0 wCenters (compute_nearest_center wDist 0 0 wCenters) ∧
    ∀ centers' : List CenterRow, centers'.Perm wCenters →
      (∀ r ∈ wCenters, ∀ r' ∈ wCenters,
        (resolvedDist wDist 0 0 r).isSome →
        resolvedDist wDist 0 0 r = resolvedDist wDist 0 0 r' →
        r = r') →
      compute_nearest_center wDist 0 0 centers' =
        compute_nearest_center wDist 0 0 wCenters :=
  nearest_center_min_first_perm wDist 0 0 wCenters (by decide)

/-- C4 (counterexample): a county row with a missing centroid latitude gets
`band_miles = "Unknown"` (capitalised), not the spec's lowercase "unknown"
sentinel, together with a null nearest-center id. -/
theorem coverage_unknown_sentinel_cex :
    (coverageRow (fun _ _ _ _ => (0 : ℚ)) [] none (some 1)).band_miles
      = "Unknown" ∧
    (coverageRow (fun _ _ _ _ => (0 : ℚ)) [] none (some 1)).band_miles
      ≠ "unknown" ∧
    (coverageRow (fun _ _ _ _ => (0 : ℚ)) [] none (some 1)).nearest_center_id
      = none := by
  refine ⟨by decide, by decide, by decide⟩

/-- C4 (amended): for every county row whose centroid latitude or longitude
is missing, the coverage engine produces a row with `band_miles` equal to
the "Unknown" sentinel and a null nearest-center id, and every other county
row still receives its normal coverage result (the output has one row per
county, each computed independently by `coverageRow`). -/
theorem coverage_missing_coord_amended (dist : ℚ → ℚ → ℚ → ℚ → ℚ)
    (centers : List CenterRow) (counties : List (Option ℚ × Option ℚ))
    (i : Nat) (hi : i < counties.length)
    (hmiss : (counties.get ⟨i, hi⟩).1 = none ∨ (counties.get ⟨i, hi⟩).2 = none) :
    (coverage_rows dist centers counties).length = counties.length ∧
    (∀ hi2 : i < (coverage_rows dist centers counties).length,
      (coverage_rows dist centers counties).get ⟨i, hi2⟩ =
        ⟨none, none, none, none, "Unknown", "Unknown"⟩) ∧
    (∀ j, ∀ hj : j < counties.length,
      ∀ hj2 : j < (coverage_rows dist centers counties).length,
      (coverage_rows dist centers counties).get ⟨j, hj2⟩ =
        coverageRow dist centers (counties.get ⟨j, hj⟩).1
          (counties.get ⟨j, hj⟩).2) := by
  refine ⟨by simp [coverage_rows], ?_, ?_⟩
  · intro hi2
    have hget : (coverage_rows dist centers counties).get ⟨i, hi2⟩ =
        coverageRow dist centers (counties.get ⟨i, hi⟩).1
          (counties.get ⟨i, hi⟩).2 := by
      simp [coverage_rows]
    rw [hget]
    rcases hc : counties.get ⟨i, hi⟩ with ⟨c1, c2⟩
    rw [hc] at hmiss
    dsimp only
    rcases hmiss with h | h
    · have h' : c1 = none := h
      rw [h']
      cases c2 <;> rfl
    · have h' : c2 = none := h
      rw [h']
      cases c1 <;> rfl
  · intro j hj hj2
    simp [coverage_rows]

/-- C4 (amended, witness): `coverage_missing_coord_amended` applied to a
concrete two-county table whose first county lacks a latitude. -/
theorem coverage_missing_coord_amended_witness :
    (coverage_rows wDist wCenters [(none, some 1), (some 0, some 0)]).length
        = 2 ∧
    (∀ hi2 : 0 < (coverage_rows wDist wCenters
        [(none, some 1), (some 0, some 0)]).length,
      (coverage_rows wDist wCenters
          [(none, some 1), (some 0, some 0)]).get ⟨0, hi2⟩ =
        ⟨none, none, none, none, "Unknown", "Unknown"⟩) ∧
    (∀ j, ∀ hj : j < ([(none, some 1), (some 0, some 0)] :
        List (Option ℚ × Option ℚ)).length,
      ∀ hj2 : j < (coverage_rows wDist wCenters
          [(none, some 1), (some 0, some 0)]).length,
      (coverage_rows wDist wCenters
          [(none, some 1), (some 0, some 0)]).get ⟨j, hj2⟩ =
        coverageRow wDist wCenters
          (([(none, some 1), (some 0, some 0)] :
            List (Option ℚ × Option ℚ)).get ⟨j, hj⟩).1
          (([(none, some 1), (some 0, some 0)] :
            List (Option ℚ × Option ℚ)).get ⟨j, hj⟩).2) :=
  coverage_missing_coord_amended wDist wCenters
    [(none, some 1), (some 0, some 0)] 0 (by decide) (Or.inl rfl)

/-- C10 (counterexample): with a resolved county and a center list whose
only center lacks a latitude, the distance stays `inf`, which is not null —
but `classify_band(inf)` falls through every band (`inf < inf` fails), so
the distance band is "Unknown", not ">300" as the claim states. -/
theorem coverage_no_center_band_cex :
    (coverageRow (fun _ _ _ _ => (0 : ℚ)) [⟨"A", "Alpha", none, some 1⟩]
        (some 0) (some 0)).great_circle_mi = some ⊤ ∧
    (coverageRow (fun _ _ _ _ => (0 : ℚ)) [⟨"A", "Alpha", none, some 1⟩]
        (some 0) (some 0)).band_miles = "Unknown" ∧
    (coverageRow (fun _ _ _ _ => (0 : ℚ)) [⟨"A", "Alpha", none, some 1⟩]
        (some 0) (some 0)).band_miles ≠ ">300" ∧
    (coverageRow (fun _ _ _ _ => (0 : ℚ)) [⟨"A", "Alpha", none, some 1⟩]
        (some 0) (some 0)).nearest_center_id = none := by
  refine ⟨by decide, by decide, by decide, by decide⟩

/-- C10 (amended): when a county has a resolved coordinate but no center in
the list has both latitude and longitude present (including an empty list),
`compute_nearest_center` returns `(None, None, +inf)`; downstream the
infinite distance is not null, so `classify_band` is invoked on it, but
`inf` satisfies no band (`inf < inf` fails for the ">300" band's upper
bound), so the county's distance band and drive-time band fall through to
the "Unknown" sentinel, while its nearest-center id and name are null. -/
theorem coverage_no_centers_amended (dist : ℚ → ℚ → ℚ → ℚ → ℚ)
    (clat clon : ℚ) (centers : List CenterRow)
    (h : ∀ r ∈ centers, resolvedDist dist clat clon r = none) :
    compute_nearest_center dist clat clon centers = (none, none, ⊤) ∧
    coverageRow dist centers (some clat) (some clon) =
      ⟨none, none, some ⊤, some ⊤, "Unknown", "Unknown"⟩ := by
  have key : ∀ (l : List CenterRow)
      (acc : Option String × Option String × WithTop ℚ),
      (∀ r ∈ l, resolvedDist dist clat clon r = none) →
      l.foldl (nearestStep dist clat clon) acc = acc := by
    intro l
    induction l with
    | nil => intro acc _; rfl
    | cons r l ih =>
      intro acc hall
      rw [List.foldl_cons]
      have hstep : nearestStep dist clat clon acc r = acc := by
        unfold nearestStep
        rw [hall r (List.mem_cons_self r l)]
      rw [hstep]
      exact ih acc (fun r' hr' => hall r' (List.mem_cons_of_mem r hr'))
  have h1 : compute_nearest_center dist clat clon centers = (none, none, ⊤) :=
    key centers (none, none, ⊤) h
  refine ⟨h1, ?_⟩
  unfold coverageRow
  dsimp only
  rw [h1]
  decide

/-- C10 (amended, witness): `coverage_no_centers_amended` applied to the
concrete one-element center list whose center lacks a latitude. -/
theorem coverage_no_centers_amended_witness :
    compute_nearest_center (fun _ _ _ _ => (0 : ℚ)) 0 0
        [⟨"A", "Alpha", none, some 1⟩] = (none, none, ⊤) ∧
    coverageRow (fun _ _ _ _ => (0 : ℚ)) [⟨"A", "Alpha", none, some 1⟩]
        (some 0) (some 0) =
      ⟨none, none, some ⊤, some ⊤, "Unknown", "Unknown"⟩ :=
  coverage_no_centers_amended (fun _ _ _ _ => (0 : ℚ)) 0 0
    [⟨"A", "Alpha", none, some 1⟩] (by decide)

/-- C7 (counterexample): a coverage row with a present latitude but a
missing longitude is dropped by `ensure_lat_lon` before the centroid merge
can run, so it is discarded — not backfilled — even though the lookup table
knows its centroid. -/
theorem load_coverage_partial_dropped_cex :
    wCovTable.rows = [⟨"01001", some 32, none⟩, ⟨"01003", some 30, some (-87)⟩] ∧
    wLookup "01001" = (some 32, some (-86)) ∧
    (load_coverage_coords true wLookup wCovTable).rows =
      [⟨"01003", some 30, some (-87)⟩] := by
  refine ⟨rfl, by decide, by decide⟩

/-- C7 (amended): when both coordinate columns are present, the load keeps
exactly the rows having both coordinates, unchanged (a present value is
never overwritten), and every row with a partially or fully missing
coordinate is dropped rather than backfilled; the centroid join and
backfill run only when the coordinate columns are absent entirely, in
which case every row receives its lookup coordinates. -/
theorem load_coverage_backfill_amended (lookupExists : Bool)
    (lookup : String → Option ℚ × Option ℚ) (t : CovTable)
    (hlat : t.hasLat = true) (hlon : t.hasLon = true) :
    (load_coverage_coords lookupExists lookup t).rows =
      t.rows.filter (fun r => r.lat.isSome && r.lon.isSome) ∧
    (∀ rows : List CovRow,
      (load_coverage_coords true lookup ⟨false, false, rows⟩).rows =
        rows.map (fun r => ⟨r.geoid, (lookup r.geoid).1, (lookup r.geoid).2⟩)) := by
  constructor
  · rcases t with ⟨bl, bn, rows⟩
    have hbl : bl = true := hlat
    have hbn : bn = true := hlon
    subst hbl
    subst hbn
    have hany : (rows.filter (fun r => r.lat.isSome && r.lon.isSome)).any
        (fun r => r.lat.isNone || r.lon.isNone) = false := by
      rw [List.any_eq_false]
      intro r hr
      have hp := (List.mem_filter.mp hr).2
      rcases hla : r.lat with _ | v
      · rw [hla] at hp
        simp at hp
      · rcases hlo : r.lon with _ | w
        · rw [hlo] at hp
          simp at hp
        · simp [hla, hlo]
    unfold load_coverage_coords ensure_lat_lon
    simp only [Bool.and_self, if_true, Bool.true_and, hany]
    rfl
  · intro rows
    cases rows with
    | nil => rfl
    | cons r rest => rfl

/-- C7 (amended, witness): `load_coverage_backfill_amended` applied to the
concrete table `wCovTable` (both columns present, one partial row). -/
theorem load_coverage_backfill_amended_witness :
    (load_coverage_coords true wLookup wCovTable).rows =
      wCovTable.rows.filter (fun r => r.lat.isSome && r.lon.isSome) ∧
    (∀ rows : List CovRow,
      (load_coverage_coords true wLookup ⟨false, false, rows⟩).rows =
        rows.map (fun r => ⟨r.geoid, (wLookup r.geoid).1, (wLookup r.geoid).2⟩)) :=
  load_coverage_backfill_amended true wLookup wCovTable rfl rfl

/-- C8: branch creation is an idempotent success — a first call in which
the remote accepts the new ref returns `refs/heads/<new_branch>`, and a
second call with the same branch name, in which the remote answers 422
(ref already exists), returns the same success value instead of failing. -/
theorem create_branch_idempotent (repo base nb sha1 sha2 : String)
    (g1 g2 p1 : Nat) (hrepo : repo.data.contains '/' = true)
    (hg1 : g1 < 400) (hg2 : g2 < 400) (hp1 : p1 < 400) :
    create_branch repo base nb g1 sha1 p1 = Except.ok ("refs/heads/" ++ nb) ∧
    create_branch repo base nb g2 sha2 422 = Except.ok ("refs/heads/" ++ nb) := by
  constructor
  · unfold create_branch
    rw [if_neg (by simpa using hrepo), if_neg (by omega), if_neg (by omega)]
    dsimp only
    rw [if_neg (by omega), if_neg (by omega)]
  · unfold create_branch
    rw [if_neg (by simpa using hrepo), if_neg (by omega), if_neg (by omega)]
    dsimp only
    rw [if_pos rfl]

/-- C8 (witness): `create_branch_idempotent` at the concrete repo
"owner/name", with GET statuses 200 and POST status 201 on the first
call. -/
theorem create_branch_idempotent_witness :
    create_branch "owner/name" "main" "edit-1" 200 "abc" 201 =
      Except.ok ("refs/heads/" ++ "edit-1") ∧
    create_branch "owner/name" "main" "edit-1" 200 "abc" 422 =
      Except.ok ("refs/heads/" ++ "edit-1") :=
  create_branch_idempotent "owner/name" "main" "edit-1" "abc" "abc" 200 200 201
    (by decide) (by omega) (by omega) (by omega)

end Duchenne
